import Mathlib

-- Shallow embedding of the c-ares bridge and request-lifecycle core of
-- src/cares_wrap.cc: channel fallback detection, the socket-task registry
-- and idle timer, the query lifecycle (completion token, response capture,
-- deferred delivery, in-flight counter) and server (re)configuration.

namespace CaresWrap

-- Engine status codes, from the ares.h interface the code consumes.
-- The engine's native error enumeration is the contiguous range 0..24.

def ARES_SUCCESS : Int := 0

def ARES_ENODATA : Int := 1

def ARES_EBADRESP : Int := 10

def ARES_ECONNREFUSED : Int := 11

def ARES_EBADSTR : Int := 17

-- The engine's native status enumeration (ares.h): the codes 0 through 24.
def aresNativeCodes : List Int := (List.range 25).map (fun n => (n : Int))

-- Core-defined extension code, src/cares_wrap.cc line 90.
def DNS_ESETSRVPENDING : Int := -1000

/-
## QueryAnyWrap::Parse (lines 1229-1398)

Each decode pass over the shared raw answer buffer is abstracted as the
status the ares parse routine reports for that record type, together with
the records the pass appends to the result array; the parse routines
append only when their status is ARES_SUCCESS, otherwise they leave the
array untouched.
-/

structure AnyReplies where
  aCname : Int × List Nat
  aaaa : Int × List Nat
  mx : Int × List Nat
  ns : Int × List Nat
  txt : Int × List Nat
  srv : Int × List Nat
  ptr : Int × List Nat
  naptr : Int × List Nat
  soa : Int × List Nat
  caa : Int × List Nat
deriving DecidableEq

inductive AnyOutcome where
  | complete (records : List Nat)
  | queryError (status : Int)
  | silentAbort
deriving DecidableEq

-- The status check shared by the passes of QueryAnyWrap::Parse:
-- status != ARES_SUCCESS && status != ARES_ENODATA aborts.
def statusContinues (st : Int) : Bool :=
  st == ARES_SUCCESS || st == ARES_ENODATA

-- The records a pass appends to the shared result array: only on success.
def recsOf (p : Int × List Nat) : List Nat :=
  if p.1 == ARES_SUCCESS then p.2 else []

-- QueryAnyWrap::Parse: the passes run over the same buffer in the fixed
-- order A/CNAME, AAAA, MX, NS, TXT, SRV, PTR, NAPTR, SOA, CAA and their
-- results are concatenated in that order.  Two irregularities of the
-- source are preserved: the SRV failure branch (lines 1353-1356) returns
-- without calling ParseError, and the PTR pass status (line 1361) is
-- never checked at all.
def queryAnyParse (r : AnyReplies) : AnyOutcome :=
  if !statusContinues r.aCname.1 then AnyOutcome.queryError r.aCname.1
  else if !statusContinues r.aaaa.1 then AnyOutcome.queryError r.aaaa.1
  else if !statusContinues r.mx.1 then AnyOutcome.queryError r.mx.1
  else if !statusContinues r.ns.1 then AnyOutcome.queryError r.ns.1
  else if !statusContinues r.txt.1 then AnyOutcome.queryError r.txt.1
  else if !statusContinues r.srv.1 then AnyOutcome.silentAbort
  else if !statusContinues r.naptr.1 then AnyOutcome.queryError r.naptr.1
  else if !statusContinues r.soa.1 then AnyOutcome.queryError r.soa.1
  else if !statusContinues r.caa.1 then AnyOutcome.queryError r.caa.1
  else AnyOutcome.complete
    (recsOf r.aCname ++ recsOf r.aaaa ++ recsOf r.mx ++ recsOf r.ns ++
     recsOf r.txt ++ recsOf r.srv ++ recsOf r.ptr ++ recsOf r.naptr ++
     recsOf r.soa ++ recsOf r.caa)

-- Modelled from the spec: section 4.4 requires EVERY pass, SRV and PTR
-- included, to continue on an empty-result (ARES_ENODATA) status and to
-- abort the whole sequence surfacing the status on any other failure.
-- This definition exists only to compare the spec sentence against the
-- behaviour of the source code above.
def queryAnySpecSequencing (r : AnyReplies) : AnyOutcome :=
  if !statusContinues r.aCname.1 then AnyOutcome.queryError r.aCname.1
  else if !statusContinues r.aaaa.1 then AnyOutcome.queryError r.aaaa.1
  else if !statusContinues r.mx.1 then AnyOutcome.queryError r.mx.1
  else if !statusContinues r.ns.1 then AnyOutcome.queryError r.ns.1
  else if !statusContinues r.txt.1 then AnyOutcome.queryError r.txt.1
  else if !statusContinues r.srv.1 then AnyOutcome.queryError r.srv.1
  else if !statusContinues r.ptr.1 then AnyOutcome.queryError r.ptr.1
  else if !statusContinues r.naptr.1 then AnyOutcome.queryError r.naptr.1
  else if !statusContinues r.soa.1 then AnyOutcome.queryError r.soa.1
  else if !statusContinues r.caa.1 then AnyOutcome.queryError r.caa.1
  else AnyOutcome.complete
    (recsOf r.aCname ++ recsOf r.aaaa ++ recsOf r.mx ++ recsOf r.ns ++
     recsOf r.txt ++ recsOf r.srv ++ recsOf r.ptr ++ recsOf r.naptr ++
     recsOf r.soa ++ recsOf r.caa)

-- A compound answer in which every pass succeeds or is empty.
def rAllGood : AnyReplies :=
  { aCname := (ARES_SUCCESS, [1]), aaaa := (ARES_ENODATA, []),
    mx := (ARES_SUCCESS, [2]), ns := (ARES_SUCCESS, [3]),
    txt := (ARES_ENODATA, []), srv := (ARES_SUCCESS, [4]),
    ptr := (ARES_SUCCESS, [5]), naptr := (ARES_ENODATA, []),
    soa := (ARES_SUCCESS, [6]), caa := (ARES_SUCCESS, [7]) }

-- Same answer, except the SRV decode fails with a malformed response.
def rSrvBad : AnyReplies := { rAllGood with srv := (ARES_EBADRESP, []) }

-- Same answer, except the PTR decode fails with a malformed response.
def rPtrBad : AnyReplies := { rAllGood with ptr := (ARES_EBADRESP, []) }

/-
## QueryWrap::Callback / QueueResponseCallback (lines 654-705)

The per-query lifecycle steps are modelled as an event trace produced by a
host loop that holds a queue of deferred (SetImmediate) tasks.
-/

inductive QEvent where
  | capture
  | setLastOk (ok : Bool)
  | decrement
  | delivery
  | release
deriving DecidableEq

structure LoopState where
  immediates : List (List QEvent)
  trace : List QEvent
deriving DecidableEq

-- QueryWrap::QueueResponseCallback (lines 694-705): SetImmediate only
-- queues the deferred task (AfterResponse, i.e. delivery, then Detach,
-- i.e. release); the last-query-ok flag update and the in-flight counter
-- decrement run synchronously, before the queued task ever executes.
def QueueResponseCallback (status : Int) (s : LoopState) : LoopState :=
  { immediates := s.immediates ++ [[QEvent.delivery, QEvent.release]],
    trace := s.trace ++
      [QEvent.setLastOk (status != ARES_ECONNREFUSED), QEvent.decrement] }

-- QueryWrap::Callback (lines 654-672): deep-copies the engine answer into
-- lifecycle-owned memory (capture) and then queues the response.
def CompletionCallback (status : Int) (s : LoopState) : LoopState :=
  QueueResponseCallback status { s with trace := s.trace ++ [QEvent.capture] }

-- The host loop drains its deferred-task queue in order.
def runImmediates (s : LoopState) : LoopState :=
  { immediates := [], trace := s.trace ++ s.immediates.flatten }

-- The full event trace of one completed query.
def completionTrace (status : Int) : List QEvent :=
  (runImmediates (CompletionCallback status { immediates := [], trace := [] })).trace

-- Index of the first occurrence of an element in a list.
def firstIdx {α : Type} [DecidableEq α] (a : α) : List α → Nat
  | [] => 0
  | e :: rest => if e = a then 0 else firstIdx a rest + 1

/-
## ChannelWrap::EnsureServers (lines 541-577)
-/

def AF_INET : Nat := 2

def INADDR_LOOPBACK : Nat := 0x7f000001

structure ServerEntry where
  family : Nat
  addr4 : Nat
  tcpPort : Nat
  udpPort : Nat
deriving DecidableEq

structure ChannelServersState where
  queryLastOk : Bool
  isServersDefault : Bool
  servers : List ServerEntry
  engineGeneration : Nat
deriving DecidableEq

-- The engine's fallback signature tested at lines 560-563: IPv4 loopback
-- with both ports zero.
def isCaresFallbackServer (s : ServerEntry) : Bool :=
  s.family == AF_INET && s.addr4 == INADDR_LOOPBACK &&
    s.tcpPort == 0 && s.udpPort == 0

-- ChannelWrap::EnsureServers.  Destroy-and-recreate of the engine
-- instance (ares_destroy; CloseTimer; Setup) is observed as a bump of
-- engineGeneration.  Note that the empty-list case (line 552) returns
-- without touching is_servers_default_.
def EnsureServers (ch : ChannelServersState) : ChannelServersState :=
  if ch.queryLastOk || !ch.isServersDefault then ch
  else
    match ch.servers with
    | [] => ch
    | s :: [] =>
      if !isCaresFallbackServer s then { ch with isServersDefault := false }
      else { ch with engineGeneration := ch.engineGeneration + 1 }
    | _ :: _ :: _ => { ch with isServersDefault := false }

def fallbackEntry : ServerEntry :=
  { family := AF_INET, addr4 := INADDR_LOOPBACK, tcpPort := 0, udpPort := 0 }

def chDefaultNoServers : ChannelServersState :=
  { queryLastOk := false, isServersDefault := true, servers := [],
    engineGeneration := 0 }

def chDefaultFallback : ChannelServersState :=
  { chDefaultNoServers with servers := [fallbackEntry] }

/-
## ares_sockstate_cb (lines 319-368) with StartTimer / CloseTimer

The task registry is the set of socket ids with a live node_ares_task;
poll handles handed to the asynchronous CloseHandle are tracked in
pendingClosures until their close callback frees them.
-/

structure BridgeState where
  tasks : List Nat
  timerRunning : Bool
  pendingClosures : List Nat
deriving DecidableEq

-- ChannelWrap::StartTimer registry effect: the timer is (re)armed; a
-- second call while active is a no-op (lines 493-505).
def StartTimer (s : BridgeState) : BridgeState := { s with timerRunning := true }

-- ChannelWrap::CloseTimer (lines 507-513).
def CloseTimer (s : BridgeState) : BridgeState := { s with timerRunning := false }

-- ares_sockstate_cb.  A `none` result models the fatal CHECK at line 358
-- (close notification for an untracked socket).  Poll-handle creation is
-- taken to succeed, per the source comment that its failure should never
-- happen.
def ares_sockstate_cb (s : BridgeState) (sock : Nat) (rd wr : Bool) :
    Option BridgeState :=
  if rd || wr then
    if sock ∈ s.tasks then some s
    else some { StartTimer s with tasks := sock :: s.tasks }
  else
    if sock ∈ s.tasks then
      if s.tasks.erase sock = [] then
        some (CloseTimer { s with tasks := s.tasks.erase sock,
                                  pendingClosures := sock :: s.pendingClosures })
      else
        some { s with tasks := s.tasks.erase sock,
                      pendingClosures := sock :: s.pendingClosures }
    else none

structure NotifyCall where
  sock : Nat
  rd : Bool
  wr : Bool
deriving DecidableEq

def runNotifies (s : BridgeState) : List NotifyCall → Option BridgeState
  | [] => some s
  | c :: rest =>
    match ares_sockstate_cb s c.sock c.rd c.wr with
    | none => none
    | some s1 => runNotifies s1 rest

def initBridge : BridgeState :=
  { tasks := [], timerRunning := false, pendingClosures := [] }

def demoCalls : List NotifyCall :=
  [{ sock := 7, rd := true, wr := false },
   { sock := 9, rd := true, wr := true },
   { sock := 7, rd := false, wr := false }]

def demoBridgeFinal : BridgeState :=
  { tasks := [9], timerRunning := true, pendingClosures := [7] }

def demoBridgeOne : BridgeState :=
  { tasks := [4], timerRunning := true, pendingClosures := [] }

/-
## The self-invalidating completion token
   (QueryWrap::~QueryWrap lines 588-594, MakeCallbackPointer lines 640-644,
    FromCallbackPointer lines 646-652, Callback lines 654-672)

cellContents: `some true` = the heap cell points at the live QueryWrap,
`some false` = the cell was nulled by the destructor, `none` = the cell
itself has been freed.  backref is QueryWrap::callback_ptr_ being
non-null.  usedDeadWrap records whether the callback ever dereferenced
the lifecycle object after its destruction.
-/

inductive MicroEv where
  | backrefNulled
  | tokenFreed
  | wrapUsed
  | delivered
deriving DecidableEq

structure TokenState where
  cellContents : Option Bool
  wrapAlive : Bool
  backref : Bool
  usedDeadWrap : Bool
  deliveredFlag : Bool
deriving DecidableEq

-- QueryWrap::~QueryWrap: if callback_ptr_ is still set, null out the
-- cell it points to, so a later callback becomes a no-op.
def destroyWrap (s : TokenState) : TokenState :=
  { s with wrapAlive := false,
           cellContents :=
             if s.backref then s.cellContents.map (fun _ => false)
             else s.cellContents }

-- QueryWrap::FromCallbackPointer followed by the rest of Callback: the
-- unique_ptr adopts the cell; the stored pointer is read; if null the
-- callback returns, the cell being freed on scope exit; otherwise the
-- wrap's back-reference is nulled, the cell is freed, and the wrap is
-- used to capture the response and queue delivery.
def invokeCallback (s : TokenState) : TokenState × List MicroEv :=
  match s.cellContents with
  | none => (s, [])
  | some false => ({ s with cellContents := none }, [MicroEv.tokenFreed])
  | some true =>
    ({ s with cellContents := none, backref := false,
              usedDeadWrap := s.usedDeadWrap || !s.wrapAlive,
              deliveredFlag := true },
     [MicroEv.backrefNulled, MicroEv.tokenFreed, MicroEv.wrapUsed,
      MicroEv.delivered])

-- Token state right after MakeCallbackPointer handed the cell to the
-- engine: cell points at the wrap, wrap alive, back-reference set.
def initToken : TokenState :=
  { cellContents := some true, wrapAlive := true, backref := true,
    usedDeadWrap := false, deliveredFlag := false }

/-
## The in-flight query counter
   (Query, lines 1863-1888; ModifyActivityQueryCount, lines 528-531;
    the completion decrement at line 704)
-/

inductive QueryEvent where
  | dispatchOk (q : Nat)
  | dispatchFail (q : Nat)
  | complete (q : Nat)
deriving DecidableEq

structure CounterState where
  activeQueryCount : Int
  inflight : List Nat
  dispatched : List Nat
deriving DecidableEq

-- Query: ModifyActivityQueryCount(1); wrap->Send(); on a nonzero Send
-- result ModifyActivityQueryCount(-1) immediately (no completion will
-- follow); otherwise the wrap stays in flight until its completion
-- callback runs QueueResponseCallback, which decrements once.
def counterStep (s : CounterState) : QueryEvent → Option CounterState
  | QueryEvent.dispatchOk q =>
    if q ∈ s.dispatched then none
    else some { activeQueryCount := s.activeQueryCount + 1,
                inflight := q :: s.inflight, dispatched := q :: s.dispatched }
  | QueryEvent.dispatchFail q =>
    if q ∈ s.dispatched then none
    else some { activeQueryCount := s.activeQueryCount + 1 - 1,
                inflight := s.inflight, dispatched := q :: s.dispatched }
  | QueryEvent.complete q =>
    if q ∈ s.inflight then
      some { activeQueryCount := s.activeQueryCount - 1,
             inflight := s.inflight.erase q, dispatched := s.dispatched }
    else none

def runQueryEvents (s : CounterState) : List QueryEvent → Option CounterState
  | [] => some s
  | e :: rest =>
    match counterStep s e with
    | none => none
    | some s1 => runQueryEvents s1 rest

def initCounter : CounterState :=
  { activeQueryCount := 0, inflight := [], dispatched := [] }

def demoQueryEvents : List QueryEvent :=
  [QueryEvent.dispatchOk 0, QueryEvent.dispatchOk 1, QueryEvent.complete 0,
   QueryEvent.dispatchFail 2, QueryEvent.complete 1]

def demoCounterFinal : CounterState :=
  { activeQueryCount := 0, inflight := [], dispatched := [2, 1, 0] }

/-
## SetServers (lines 2149-2229)
-/

structure ServerSpecIn where
  isV6 : Bool
  parses : Bool
  addr : Nat
  port : Nat
deriving DecidableEq

structure SetServersState where
  activeQueryCount : Int
  isServersDefault : Bool
  engineServers : List (Bool × Nat × Nat)
deriving DecidableEq

-- SetServers.  Each requested entry carries its family, whether
-- uv_inet_pton accepts its address text, and the parsed payload.
-- engineResult abstracts the status the engine returns from
-- ares_set_servers (empty list) or ares_set_servers_ports; the engine
-- applies the new list exactly when that status is ARES_SUCCESS.
def SetServers (ch : SetServersState) (arr : List ServerSpecIn)
    (engineResult : Int) : SetServersState × Int :=
  if ch.activeQueryCount ≠ 0 then (ch, DNS_ESETSRVPENDING)
  else if arr = [] then
    (if engineResult = ARES_SUCCESS then { ch with engineServers := [] } else ch,
     engineResult)
  else if arr.any (fun sp => !sp.parses) then (ch, ARES_EBADSTR)
  else if engineResult = ARES_SUCCESS then
    ({ ch with engineServers := arr.map (fun sp => (sp.isV6, sp.addr, sp.port)),
               isServersDefault := false }, ARES_SUCCESS)
  else (ch, engineResult)

def chIdle : SetServersState :=
  { activeQueryCount := 0, isServersDefault := true, engineServers := [] }

def chBusy : SetServersState :=
  { activeQueryCount := 1, isServersDefault := true,
    engineServers := [(false, 0x08080808, 53)] }

def spGood : ServerSpecIn :=
  { isV6 := false, parses := true, addr := 0x08080808, port := 53 }

/-
## ChannelWrap::StartTimer period clamp (lines 501-504)
-/

-- The period actually armed on the repeating idle timer.
def startTimerPeriod (timeout : Int) : Int :=
  if timeout = 0 then 1
  else if timeout < 0 ∨ timeout > 1000 then 1000
  else timeout

/-! ## Theorems -/

/-- Claim C8: for every configured timeout value the period armed on the
IdleTimer lies in the interval from 1 to 1000 milliseconds; 0 (meaning
use-default) and every value outside that interval are clamped into it,
and in-range values are armed unchanged. -/
theorem startTimerPeriod_clamped (timeout : Int) :
    1 ≤ startTimerPeriod timeout ∧ startTimerPeriod timeout ≤ 1000 ∧
      (1 ≤ timeout → timeout ≤ 1000 → startTimerPeriod timeout = timeout) := by
  unfold startTimerPeriod
  split_ifs <;> omega

/-- Claim C8 witness: the theorem evaluated at the in-range timeout 500. -/
theorem startTimerPeriod_clamped_witness : startTimerPeriod 500 = 500 :=
  (startTimerPeriod_clamped 500).2.2 (by decide) (by decide)

/-- Claim C2 counterexample: for a successful query (engine status 0) the
in-flight counter decrement and the last-ok flag update occur at queue
time, strictly before the deferred delivery runs, contradicting the
claimed delivery-before-decrement ordering. -/
theorem lifecycle_order_cex :
    completionTrace 0 =
      [QEvent.capture, QEvent.setLastOk true, QEvent.decrement,
       QEvent.delivery, QEvent.release] ∧
    ¬ firstIdx QEvent.delivery (completionTrace 0) <
        firstIdx QEvent.decrement (completionTrace 0) := by decide

/-- Claim C2 (amended): for every single query the lifecycle steps are
strictly ordered, but as capture, then the last-ok flag update (where a
connection-refused status does not count as ok), then the in-flight
counter decrement — both performed synchronously when the deferred
delivery is queued — then the deferred delivery to the completion hook,
and finally the release of the lifecycle object. -/
theorem lifecycle_order (status : Int) :
    completionTrace status =
      [QEvent.capture, QEvent.setLastOk (status != ARES_ECONNREFUSED),
       QEvent.decrement, QEvent.delivery, QEvent.release] ∧
    firstIdx QEvent.capture (completionTrace status) <
      firstIdx (QEvent.setLastOk (status != ARES_ECONNREFUSED))
        (completionTrace status) ∧
    firstIdx (QEvent.setLastOk (status != ARES_ECONNREFUSED))
        (completionTrace status) <
      firstIdx QEvent.decrement (completionTrace status) ∧
    firstIdx QEvent.decrement (completionTrace status) <
      firstIdx QEvent.delivery (completionTrace status) ∧
    firstIdx QEvent.delivery (completionTrace status) <
      firstIdx QEvent.release (completionTrace status) := by
  refine ⟨rfl, ?_, ?_, ?_, ?_⟩ <;>
    simp [completionTrace, CompletionCallback, QueueResponseCallback,
          runImmediates, firstIdx]

/-- Claim C5: the completion callback is consumed at most once through the
token (the cell is freed on consumption); if the lifecycle was destroyed
first the cell holds null and the callback delivers nothing and never
dereferences the freed lifecycle while still freeing the cell; if the
lifecycle is alive the callback nulls the back-reference before using the
lifecycle, and a destructor running after consumption does not touch the
freed cell. -/
theorem token_callback_safety :
    ((invokeCallback (destroyWrap initToken)).1.deliveredFlag = false ∧
     (invokeCallback (destroyWrap initToken)).1.usedDeadWrap = false ∧
     MicroEv.wrapUsed ∉ (invokeCallback (destroyWrap initToken)).2 ∧
     (destroyWrap initToken).cellContents = some false ∧
     (invokeCallback (destroyWrap initToken)).1.cellContents = none) ∧
    ((invokeCallback initToken).1.deliveredFlag = true ∧
     (invokeCallback initToken).1.usedDeadWrap = false ∧
     (invokeCallback initToken).1.backref = false ∧
     firstIdx MicroEv.backrefNulled (invokeCallback initToken).2 <
       firstIdx MicroEv.wrapUsed (invokeCallback initToken).2 ∧
     (invokeCallback initToken).1.cellContents = none) ∧
    (destroyWrap (invokeCallback initToken).1).cellContents = none := by decide

/-- Claim C1 counterexample: with every pass succeeding except an SRV
decode failing as malformed (ARES_EBADRESP), the code silently aborts the
sequence and surfaces nothing, while the claimed behaviour would surface
ARES_EBADRESP; and with only the PTR decode failing the same way, the
code does not abort at all and completes. -/
theorem queryAny_sequencing_cex :
    queryAnyParse rSrvBad = AnyOutcome.silentAbort ∧
    queryAnySpecSequencing rSrvBad = AnyOutcome.queryError ARES_EBADRESP ∧
    AnyOutcome.silentAbort ≠ AnyOutcome.queryError ARES_EBADRESP ∧
    queryAnyParse rPtrBad = AnyOutcome.complete [1, 2, 3, 4, 6, 7] ∧
    queryAnySpecSequencing rPtrBad = AnyOutcome.queryError ARES_EBADRESP := by
  decide

/-- Claim C1 (amended): the decode passes run over the same raw buffer in
the fixed order A/CNAME, AAAA, MX, NS, TXT, SRV, PTR, NAPTR, SOA, CAA,
concatenating results in that order; for the A/CNAME, AAAA, MX, NS, TXT,
NAPTR, SOA and CAA passes an empty-result (ENODATA) status continues with
the next type and any other non-success status aborts the sequence and
surfaces that status as the query's error; an SRV-pass failure other than
ENODATA aborts the sequence WITHOUT surfacing any error, and the PTR
pass's status is never checked, so a PTR failure neither aborts nor
surfaces and the sequence continues. -/
theorem queryAny_sequencing (r : AnyReplies) :
    (statusContinues r.aCname.1 = true → statusContinues r.aaaa.1 = true →
     statusContinues r.mx.1 = true → statusContinues r.ns.1 = true →
     statusContinues r.txt.1 = true → statusContinues r.srv.1 = true →
     statusContinues r.naptr.1 = true → statusContinues r.soa.1 = true →
     statusContinues r.caa.1 = true →
      queryAnyParse r = AnyOutcome.complete
        (recsOf r.aCname ++ recsOf r.aaaa ++ recsOf r.mx ++ recsOf r.ns ++
         recsOf r.txt ++ recsOf r.srv ++ recsOf r.ptr ++ recsOf r.naptr ++
         recsOf r.soa ++ recsOf r.caa)) ∧
    (statusContinues r.aCname.1 = false →
      queryAnyParse r = AnyOutcome.queryError r.aCname.1) ∧
    (statusContinues r.aCname.1 = true → statusContinues r.aaaa.1 = false →
      queryAnyParse r = AnyOutcome.queryError r.aaaa.1) ∧
    (statusContinues r.aCname.1 = true → statusContinues r.aaaa.1 = true →
     statusContinues r.mx.1 = false →
      queryAnyParse r = AnyOutcome.queryError r.mx.1) ∧
    (statusContinues r.aCname.1 = true → statusContinues r.aaaa.1 = true →
     statusContinues r.mx.1 = true → statusContinues r.ns.1 = false →
      queryAnyParse r = AnyOutcome.queryError r.ns.1) ∧
    (statusContinues r.aCname.1 = true → statusContinues r.aaaa.1 = true →
     statusContinues r.mx.1 = true → statusContinues r.ns.1 = true →
     statusContinues r.txt.1 = false →
      queryAnyParse r = AnyOutcome.queryError r.txt.1) ∧
    (statusContinues r.aCname.1 = true → statusContinues r.aaaa.1 = true →
     statusContinues r.mx.1 = true → statusContinues r.ns.1 = true →
     statusContinues r.txt.1 = true → statusContinues r.srv.1 = false →
      queryAnyParse r = AnyOutcome.silentAbort) ∧
    (statusContinues r.aCname.1 = true → statusContinues r.aaaa.1 = true →
     statusContinues r.mx.1 = true → statusContinues r.ns.1 = true →
     statusContinues r.txt.1 = true → statusContinues r.srv.1 = true →
     statusContinues r.naptr.1 = false →
      queryAnyParse r = AnyOutcome.queryError r.naptr.1) ∧
    (statusContinues r.aCname.1 = true → statusContinues r.aaaa.1 = true →
     statusContinues r.mx.1 = true → statusContinues r.ns.1 = true →
     statusContinues r.txt.1 = true → statusContinues r.srv.1 = true →
     statusContinues r.naptr.1 = true → statusContinues r.soa.1 = false →
      queryAnyParse r = AnyOutcome.queryError r.soa.1) ∧
    (statusContinues r.aCname.1 = true → statusContinues r.aaaa.1 = true →
     statusContinues r.mx.1 = true → statusContinues r.ns.1 = true →
     statusContinues r.txt.1 = true → statusContinues r.srv.1 = true →
     statusContinues r.naptr.1 = true → statusContinues r.soa.1 = true →
     statusContinues r.caa.1 = false →
      queryAnyParse r = AnyOutcome.queryError r.caa.1) := by
  refine ⟨?_, ?_, ?_, ?_, ?_, ?_, ?_, ?_, ?_, ?_⟩ <;>
    intros <;> simp [queryAnyParse, *]

/-- Claim C1 witness: the amended theorem evaluated on a compound answer
in which every pass either succeeds or is empty. -/
theorem queryAny_sequencing_witness :
    queryAnyParse rAllGood = AnyOutcome.complete
      (recsOf rAllGood.aCname ++ recsOf rAllGood.aaaa ++ recsOf rAllGood.mx ++
       recsOf rAllGood.ns ++ recsOf rAllGood.txt ++ recsOf rAllGood.srv ++
       recsOf rAllGood.ptr ++ recsOf rAllGood.naptr ++ recsOf rAllGood.soa ++
       recsOf rAllGood.caa) :=
  (queryAny_sequencing rAllGood).1 (by decide) (by decide) (by decide)
    (by decide) (by decide) (by decide) (by decide) (by decide) (by decide)

/-- Claim C3 counterexample: with last_query_ok false, is_servers_default
true and an EMPTY engine server list, EnsureServers returns with the
channel unchanged — in particular is_servers_default stays true — whereas
the claim requires it to be set to false. -/
theorem EnsureServers_cex :
    EnsureServers chDefaultNoServers = chDefaultNoServers ∧
    (EnsureServers chDefaultNoServers).isServersDefault = true := by decide

/-- Claim C3 (amended): when last_query_ok is true or is_servers_default
is false, EnsureServers does nothing; with last_query_ok false and
is_servers_default true, an empty server list also leaves the channel
completely unchanged (the flag is NOT cleared); a list with more than one
entry, or whose single entry is not exactly IPv4 127.0.0.1 with both
ports zero, clears is_servers_default without recreating the engine; and
a single entry matching that fallback signature destroys and recreates
the engine instance in place. -/
theorem EnsureServers_cases (ch : ChannelServersState) :
    (ch.queryLastOk = true ∨ ch.isServersDefault = false →
      EnsureServers ch = ch) ∧
    (ch.queryLastOk = false → ch.isServersDefault = true →
      ch.servers = [] → EnsureServers ch = ch) ∧
    (∀ s rest, ch.queryLastOk = false → ch.isServersDefault = true →
      ch.servers = s :: rest → (rest = [] → isCaresFallbackServer s = false) →
      EnsureServers ch = { ch with isServersDefault := false }) ∧
    (∀ s, ch.queryLastOk = false → ch.isServersDefault = true →
      ch.servers = [s] → isCaresFallbackServer s = true →
      EnsureServers ch = { ch with engineGeneration := ch.engineGeneration + 1 }) := by
  refine ⟨?_, ?_, ?_, ?_⟩
  · rintro (h | h) <;> simp [EnsureServers, h]
  · intro h1 h2 h3
    simp [EnsureServers, h1, h2, h3]
  · intro s rest h1 h2 h3 h4
    cases rest with
    | nil => simp [EnsureServers, h1, h2, h3, h4 rfl]
    | cons b bs => simp [EnsureServers, h1, h2, h3]
  · intro s h1 h2 h3 h4
    simp [EnsureServers, h1, h2, h3, h4]

/-- Claim C3 witness: the amended theorem evaluated on a channel whose
single server is the engine's loopback fallback signature. -/
theorem EnsureServers_witness :
    EnsureServers chDefaultFallback =
      { chDefaultFallback with
          engineGeneration := chDefaultFallback.engineGeneration + 1 } :=
  (EnsureServers_cases chDefaultFallback).2.2.2 fallbackEntry rfl rfl rfl
    (by decide)

-- One socket-notify call preserves the registry/timer invariant.
theorem sockstate_preserves (s s1 : BridgeState) (sock : Nat) (rd wr : Bool)
    (hn : s.tasks.Nodup) (ht : s.timerRunning = true ↔ s.tasks ≠ [])
    (h : ares_sockstate_cb s sock rd wr = some s1) :
    s1.tasks.Nodup ∧ (s1.timerRunning = true ↔ s1.tasks ≠ []) := by
  unfold ares_sockstate_cb at h
  split at h
  · split at h
    · injection h with h
      subst h
      exact ⟨hn, ht⟩
    · next hmem =>
      injection h with h
      subst h
      refine ⟨List.nodup_cons.mpr ⟨hmem, hn⟩, ?_⟩
      simp [StartTimer]
  · split at h
    · next hmem =>
      split at h
      · next he =>
        injection h with h
        subst h
        exact ⟨hn.erase sock, by simp [CloseTimer, he]⟩
      · next he =>
        injection h with h
        subst h
        exact ⟨hn.erase sock,
          by simp only [he, iff_true, ne_eq, not_false_iff]
             exact ht.mpr (List.ne_nil_of_mem hmem)⟩
    · exact Option.noConfusion h

-- The invariant is preserved along any non-crashing run.
theorem runNotifies_preserves (calls : List NotifyCall) (s s1 : BridgeState)
    (hn : s.tasks.Nodup) (ht : s.timerRunning = true ↔ s.tasks ≠ [])
    (h : runNotifies s calls = some s1) :
    s1.tasks.Nodup ∧ (s1.timerRunning = true ↔ s1.tasks ≠ []) := by
  induction calls generalizing s with
  | nil =>
    simp only [runNotifies] at h
    injection h with h
    subst h
    exact ⟨hn, ht⟩
  | cons c rest ih =>
    simp only [runNotifies] at h
    cases hc : ares_sockstate_cb s c.sock c.rd c.wr with
    | none => rw [hc] at h; exact Option.noConfusion h
    | some s2 =>
      rw [hc] at h
      have hp := sockstate_preserves s s2 c.sock c.rd c.wr hn ht hc
      exact ih s2 hp.1 hp.2 h

/-- Claim C4: along every sequence of socket-notify calls that the bridge
survives (in particular every sequence whose zero-flag calls target
sockets currently tracked), starting from the empty registry with the
timer stopped, the registry never holds two tasks for the same socket id
and the IdleTimer is running exactly when the registry is nonempty. -/
theorem registry_timer_invariant (calls : List NotifyCall) (s1 : BridgeState)
    (h : runNotifies initBridge calls = some s1) :
    s1.tasks.Nodup ∧ (s1.timerRunning = true ↔ s1.tasks ≠ []) :=
  runNotifies_preserves calls initBridge s1 (by simp [initBridge])
    (by simp [initBridge]) h

/-- Claim C4 witness: the invariant theorem evaluated on a run that opens
two sockets and closes one of them. -/
theorem registry_timer_invariant_witness :
    demoBridgeFinal.tasks.Nodup ∧
      (demoBridgeFinal.timerRunning = true ↔ demoBridgeFinal.tasks ≠ []) :=
  registry_timer_invariant demoCalls demoBridgeFinal (by decide)

/-- Claim C9: a zero-flag (close) notification for a socket id with no
task in the registry hits the fatal CHECK and terminates (modelled as
`none`), never a silent recovery; when the task exists it is removed from
the registry and its poll handle is handed to asynchronous closure. -/
theorem close_notify_contract (s : BridgeState) (sock : Nat) :
    (sock ∉ s.tasks → ares_sockstate_cb s sock false false = none) ∧
    (s.tasks.Nodup → sock ∈ s.tasks →
      ∃ s1, ares_sockstate_cb s sock false false = some s1 ∧
        sock ∉ s1.tasks ∧ sock ∈ s1.pendingClosures ∧
        s1.tasks = s.tasks.erase sock) := by
  constructor
  · intro hmem
    simp [ares_sockstate_cb, hmem]
  · intro hnd hmem
    have hne : sock ∉ s.tasks.erase sock := by
      intro hin
      exact ((List.Nodup.mem_erase_iff hnd).mp hin).1 rfl
    unfold ares_sockstate_cb
    simp only [Bool.or_self, if_neg (by simp : ¬ (false = true)), if_pos hmem]
    split
    · exact ⟨_, rfl, by simpa [CloseTimer] using hne, by simp [CloseTimer], rfl⟩
    · exact ⟨_, rfl, hne, by simp, rfl⟩

/-- Claim C9 witness: the contract evaluated on a registry tracking socket
4, closed via a zero-flag notification. -/
theorem close_notify_contract_witness :
    ∃ s1, ares_sockstate_cb demoBridgeOne 4 false false = some s1 ∧
      4 ∉ s1.tasks ∧ 4 ∈ s1.pendingClosures ∧
      s1.tasks = demoBridgeOne.tasks.erase 4 :=
  (close_notify_contract demoBridgeOne 4).2 (by decide) (by decide)

-- One dispatch/completion event keeps the counter equal to the number of
-- in-flight queries.
theorem counterStep_len (s s1 : CounterState) (e : QueryEvent)
    (hlen : s.activeQueryCount = s.inflight.length)
    (h : counterStep s e = some s1) :
    s1.activeQueryCount = s1.inflight.length := by
  cases e with
  | dispatchOk q =>
    simp only [counterStep] at h
    split at h
    · exact Option.noConfusion h
    · injection h with h
      subst h
      simp [hlen]
  | dispatchFail q =>
    simp only [counterStep] at h
    split at h
    · exact Option.noConfusion h
    · injection h with h
      subst h
      simp [hlen]
  | complete q =>
    simp only [counterStep] at h
    split at h
    · next hq =>
      injection h with h
      subst h
      simp only
      rw [List.length_erase_of_mem hq]
      have hpos : 0 < s.inflight.length := List.length_pos_of_mem hq
      omega
    · exact Option.noConfusion h

theorem runQueryEvents_len (evs : List QueryEvent) (s s1 : CounterState)
    (hlen : s.activeQueryCount = s.inflight.length)
    (h : runQueryEvents s evs = some s1) :
    s1.activeQueryCount = s1.inflight.length := by
  induction evs generalizing s with
  | nil =>
    simp only [runQueryEvents] at h
    injection h with h
    subst h
    exact hlen
  | cons e rest ih =>
    simp only [runQueryEvents] at h
    cases hc : counterStep s e with
    | none => rw [hc] at h; exact Option.noConfusion h
    | some s2 =>
      rw [hc] at h
      exact ih s2 (counterStep_len s s2 e hlen hc) h

/-- Claim C6: along every valid interleaving of query dispatches (each
incrementing once, with a failed Send paired with its immediate
decrement) and completions (each decrementing once), the in-flight
counter always equals the number of still-in-flight queries, hence never
goes negative, and is exactly 0 once every dispatched query has
completed. -/
theorem inflight_counter_invariant (evs : List QueryEvent) (s1 : CounterState)
    (h : runQueryEvents initCounter evs = some s1) :
    s1.activeQueryCount = s1.inflight.length ∧ 0 ≤ s1.activeQueryCount ∧
      (s1.inflight = [] → s1.activeQueryCount = 0) := by
  have hlen := runQueryEvents_len evs initCounter s1 (by simp [initCounter]) h
  refine ⟨hlen, by omega, ?_⟩
  intro he
  rw [hlen, he]
  rfl

/-- Claim C6 witness: the counter invariant evaluated on an interleaving
of two successful dispatches, one failed dispatch and two completions. -/
theorem inflight_counter_invariant_witness :
    demoCounterFinal.activeQueryCount = demoCounterFinal.inflight.length ∧
      0 ≤ demoCounterFinal.activeQueryCount ∧
      (demoCounterFinal.inflight = [] →
        demoCounterFinal.activeQueryCount = 0) :=
  inflight_counter_invariant demoQueryEvents demoCounterFinal (by decide)

/-- Claim C7: whenever the in-flight counter is nonzero, SetServers
returns the core-defined pending-queries code, which lies outside the
engine's native status enumeration, and leaves the channel — including
the engine's server list — completely unchanged. -/
theorem SetServers_pending (ch : SetServersState) (arr : List ServerSpecIn)
    (er : Int) (h : ch.activeQueryCount ≠ 0) :
    SetServers ch arr er = (ch, DNS_ESETSRVPENDING) ∧
      DNS_ESETSRVPENDING ∉ aresNativeCodes := by
  refine ⟨?_, by decide⟩
  simp [SetServers, h]

/-- Claim C7 witness: the rejection theorem evaluated on a channel with
one query in flight. -/
theorem SetServers_pending_witness :
    SetServers chBusy [spGood] ARES_SUCCESS = (chBusy, DNS_ESETSRVPENDING) ∧
      DNS_ESETSRVPENDING ∉ aresNativeCodes :=
  SetServers_pending chBusy [spGood] ARES_SUCCESS (by decide)

/-- Claim C10: SetServers clears is_servers_default only when a non-empty
server list is applied with engine success: while queries are pending, on
an empty list, on any address-parse failure, and on an engine rejection
the flag is left unchanged; with no pending queries, a non-empty list
whose every address parses, and engine success, the flag becomes false. -/
theorem SetServers_default_flag (ch : SetServersState)
    (arr : List ServerSpecIn) (er : Int) :
    (ch.activeQueryCount ≠ 0 →
      (SetServers ch arr er).1.isServersDefault = ch.isServersDefault) ∧
    (arr = [] →
      (SetServers ch arr er).1.isServersDefault = ch.isServersDefault) ∧
    (arr.any (fun sp => !sp.parses) = true →
      (SetServers ch arr er).1.isServersDefault = ch.isServersDefault) ∧
    (er ≠ ARES_SUCCESS →
      (SetServers ch arr er).1.isServersDefault = ch.isServersDefault) ∧
    (ch.activeQueryCount = 0 → arr ≠ [] →
      arr.any (fun sp => !sp.parses) = false → er = ARES_SUCCESS →
      (SetServers ch arr er).1.isServersDefault = false) := by
  refine ⟨?_, ?_, ?_, ?_, ?_⟩ <;> intros <;>
    simp only [SetServers] <;> split_ifs <;> simp_all

/-- Claim C10 witness: the flag theorem evaluated on an idle channel given
one well-formed IPv4 server accepted by the engine. -/
theorem SetServers_default_flag_witness :
    (SetServers chIdle [spGood] ARES_SUCCESS).1.isServersDefault = false :=
  (SetServers_default_flag chIdle [spGood] ARES_SUCCESS).2.2.2.2 rfl
    (by decide) (by decide) rfl

end CaresWrap
